import Mathlib

/-!
Verification of mapnik's `image_cast.cpp` (image format conversion with
saturating numeric casts and optional offset/scaling rescale).

Modelling decisions:
* C++ `double` values (pixel intermediates, offset/scaling metadata) are
  modelled as exact rationals `ℚ`; non-finite doubles are outside the model.
* Each concrete image buffer kind (`image_rgba8`, `image_gray8`,
  `image_gray16`, `image_gray32f`) stores its pixels as numbers: the pixel
  element types are `uint32` (the packed rgba word), `uint8`, `uint16` and
  `float` respectively, so a single structure tagged with its dtype and
  holding a row-major list of rational pixel values represents them all.
* `boost::numeric_cast<dst_type>` together with the visitors'
  `catch(negative_overflow)` / `catch(positive_overflow)` handlers is
  modelled as the total function `sat_cast`:
  - integer destinations: values `≥ max + 1` saturate to `max`
    (`positive_overflow` handler stores `numeric_limits::max()`), values
    `≤ -1` saturate to `0` (`negative_overflow` handler stores
    `numeric_limits::min()`, which is `0` for the unsigned pixel types),
    in-range values are truncated toward zero (boost's default `Trunc`
    rounder for float-to-int; exact for integer sources);
  - the `float` destination: values above `FLT_MAX` saturate to `FLT_MAX`
    (`numeric_limits<float>::max()`); values below `-FLT_MAX` store
    `numeric_limits<float>::min()`, which in C++ is the smallest positive
    normalized value `2 ^ (-126)`, not the lowest float.
* Thrown `std::runtime_error`s become `Except` errors: the message
  "Can not cast a null image" is `CastError.InvalidInput` and
  "Unknown image type passed" is `CastError.UnknownFormat`.
-/

/-- The `image_dtype` enumeration: one tag per concrete buffer kind plus the
null sentinel. -/
inductive image_dtype : Type where
  | rgba8
  | gray8
  | gray16
  | gray32f
  | null
deriving DecidableEq

/-- The numeric code of each enumerator, in declaration order, as the C++
enum value underlying `image_dtype`. -/
def image_dtype.code : image_dtype → Nat
  | .rgba8 => 0
  | .gray8 => 1
  | .gray16 => 2
  | .gray32f => 3
  | .null => 4

/-- `FLT_MAX`, the largest finite `float`, as an exact rational:
`(2^24 - 1) * 2^104`. -/
def flt_max : ℚ := (2 ^ 24 - 1) * 2 ^ 104

/-- `std::numeric_limits<float>::min()`: the smallest positive normalized
`float`, `2 ^ (-126)`, as an exact rational.  Note this is a tiny positive
number, not the lowest `float` (`-FLT_MAX`). -/
def flt_min_pos : ℚ := 1 / 2 ^ 126

/-- The largest value representable in the pixel element type of each
integer-pixel buffer kind (`uint32` for the packed rgba word, `uint8`,
`uint16`).  Unused for the float kind and the null sentinel. -/
def dst_max : image_dtype → ℚ
  | .rgba8 => 4294967295
  | .gray8 => 255
  | .gray16 => 65535
  | .gray32f => 0
  | .null => 0

/-- Truncation toward zero of a rational, the rounding applied by
`boost::numeric_cast` (default `Trunc` rounder) for in-range
float-to-integer conversions. -/
def ratTrunc (v : ℚ) : ℤ := v.num.tdiv v.den

/-- The per-pixel conversion of the visitors:
`dst(x,y) = numeric_cast<dst_type>(v)` wrapped in the
`catch(negative_overflow)` / `catch(positive_overflow)` handlers that store
`numeric_limits<dst_type>::min()` / `numeric_limits<dst_type>::max()`. -/
def sat_cast (d : image_dtype) (v : ℚ) : ℚ :=
  match d with
  | .gray32f =>
      if v > flt_max then flt_max
      else if v < -flt_max then flt_min_pos
      else v
  | .null => 0
  | _ =>
      if v ≥ dst_max d + 1 then dst_max d
      else if v ≤ -1 then 0
      else ((ratTrunc v : ℤ) : ℚ)

/-- A concrete image buffer: its kind tag, dimensions, row-major pixel grid,
and the offset/scaling calibration metadata (`physical = raw * scaling +
offset`; defaults 0 and 1). -/
structure image_buffer : Type where
  dtype : image_dtype
  width : Nat
  height : Nat
  pixels : List ℚ
  offset : ℚ
  scaling : ℚ
deriving DecidableEq

/-- Indexed pixel read `src(x,y)` on the row-major grid. -/
def image_buffer.pix (b : image_buffer) (x y : Nat) : ℚ :=
  b.pixels.getD (y * b.width + x) 0

/-- Structural invariant of the collaborator buffer type: the grid has
exactly `width * height` elements. -/
def image_buffer.wf (b : image_buffer) : Prop :=
  b.pixels.length = b.width * b.height

instance (b : image_buffer) : Decidable b.wf := by
  unfold image_buffer.wf; infer_instance

/-- The `image_any` variant: the null sentinel or a concrete buffer. -/
inductive image_any : Type where
  | image_null
  | image_buf (b : image_buffer)
deriving DecidableEq

/-- `image_any::get_offset()`: the buffer metadata, or the default 0.0 for
the null variant. -/
def image_any.get_offset : image_any → ℚ
  | .image_null => 0
  | .image_buf b => b.offset

/-- `image_any::get_scaling()`: the buffer metadata, or the default 1.0 for
the null variant. -/
def image_any.get_scaling : image_any → ℚ
  | .image_null => 1
  | .image_buf b => b.scaling

/-- The error conditions the conversion engine signals (thrown
`std::runtime_error`s in the source). -/
inductive CastError : Type where
  | InvalidInput
  | UnknownFormat
deriving DecidableEq

/-- The generic branch of `detail::visitor_image_cast::operator()<T1>`:
allocate a `width × height` destination buffer (offset/scaling left at the
defaults 0 and 1) and fill every pixel with the saturating cast of the
source pixel. -/
def cast_pixels (d : image_dtype) (b : image_buffer) : image_buffer :=
  { dtype := d
    width := b.width
    height := b.height
    pixels := b.pixels.map (fun p => sat_cast d p)
    offset := 0
    scaling := 1 }

/-- `detail::visitor_image_cast<T0>` applied to the variant: null throws,
an exactly-matching kind is copied, any other kind goes through the
per-pixel saturating cast loop. -/
def visitor_image_cast (d : image_dtype) : image_any → Except CastError image_buffer
  | .image_null => .error .InvalidInput
  | .image_buf b => if b.dtype = d then .ok b else .ok (cast_pixels d b)

/-- The generic branch of `detail::visitor_image_cast_so::operator()<T1>`:
read `src_offset` and `src_scaling` from the source, allocate the
destination with metadata set to the requested offset/scaling, and for every
pixel store the saturating cast of
`((double(src(x,y)) * src_scaling + src_offset) - offset_) / scaling_`. -/
def cast_pixels_so (d : image_dtype) (o s : ℚ) (b : image_buffer) : image_buffer :=
  { dtype := d
    width := b.width
    height := b.height
    pixels := b.pixels.map (fun p => sat_cast d ((p * b.scaling + b.offset - o) / s))
    offset := o
    scaling := s }

/-- `detail::visitor_image_cast_so<T0>` applied to the variant: null throws,
an exactly-matching kind is copied (the requested offset/scaling are not
applied on that path), any other kind goes through the rescaling loop. -/
def visitor_image_cast_so (d : image_dtype) (o s : ℚ) :
    image_any → Except CastError image_buffer
  | .image_null => .error .InvalidInput
  | .image_buf b => if b.dtype = d then .ok b else .ok (cast_pixels_so d o s b)

/-- The per-destination-type entry point
`image_cast<T>(image_any const&, double offset, double scaling)`: the plain
visitor when the requested offset/scaling and the source metadata are all
exactly the identity constants, the rescaling visitor otherwise. -/
def image_cast_typed (d : image_dtype) (data : image_any) (o s : ℚ) :
    Except CastError image_buffer :=
  if o = 0 ∧ s = 1 ∧ data.get_offset = 0 ∧ data.get_scaling = 1 then
    visitor_image_cast d data
  else
    visitor_image_cast_so d o s data

/-- The dispatcher
`image_cast(image_any const&, image_dtype type, double, double)` over the
closed enumeration: each concrete tag forwards to the per-type entry point
and re-wraps the result; the null tag throws. -/
def image_cast_any (data : image_any) (t : image_dtype) (o s : ℚ) :
    Except CastError image_any :=
  match t with
  | .rgba8 => (image_cast_typed .rgba8 data o s).map image_any.image_buf
  | .gray8 => (image_cast_typed .gray8 data o s).map image_any.image_buf
  | .gray16 => (image_cast_typed .gray16 data o s).map image_any.image_buf
  | .gray32f => (image_cast_typed .gray32f data o s).map image_any.image_buf
  | .null => .error .InvalidInput

/-- The dispatcher as seen through the integer type underlying the C++ enum:
a `switch` over the enumerator codes whose fall-through (any value outside
the enumeration) throws "Unknown image type passed". -/
def image_cast_code (data : image_any) (t : Nat) (o s : ℚ) :
    Except CastError image_any :=
  if t = 0 then (image_cast_typed .rgba8 data o s).map image_any.image_buf
  else if t = 1 then (image_cast_typed .gray8 data o s).map image_any.image_buf
  else if t = 2 then (image_cast_typed .gray16 data o s).map image_any.image_buf
  else if t = 3 then (image_cast_typed .gray32f data o s).map image_any.image_buf
  else if t = 4 then .error .InvalidInput
  else .error .UnknownFormat

/-- Modelled from the spec: the pixel element type of the rgba8 kind (defined
in the image-buffer collaborator, outside this core's source file) is "a
4-channel 8-bit-per-channel packed color kind" stored as one 32-bit word;
`pack_rgba r g b a` is the packed word holding those four channel bytes. -/
def pack_rgba (r g bl a : ℕ) : ℚ :=
  ((r + 256 * g + 65536 * bl + 16777216 * a : ℕ) : ℚ)

/-- Concrete example buffers used by the witness theorems. -/
def exBuf : image_buffer :=
  { dtype := .gray8
    width := 2
    height := 1
    pixels := [3, 250]
    offset := 0
    scaling := 1 }

lemma idx_lt {x y w h : Nat} (hx : x < w) (hy : y < h) : y * w + x < w * h := by
  have h2 : (y + 1) * w ≤ h * w := Nat.mul_le_mul_right w hy
  have h3 : (y + 1) * w = y * w + w := by ring
  have h4 : h * w = w * h := Nat.mul_comm h w
  omega

lemma getD_map_lt (f : ℚ → ℚ) (l : List ℚ) (i : Nat) (h : i < l.length) :
    (l.map f).getD i 0 = f (l.getD i 0) := by
  rw [List.getD_eq_getElem?_getD, List.getD_eq_getElem?_getD, List.getElem?_map,
    List.getElem?_eq_getElem h]
  rfl

lemma pix_cast_pixels (d : image_dtype) (b : image_buffer) (hwf : b.wf)
    {x y : Nat} (hx : x < b.width) (hy : y < b.height) :
    (cast_pixels d b).pix x y = sat_cast d (b.pix x y) := by
  show (b.pixels.map (fun p => sat_cast d p)).getD (y * b.width + x) 0 =
    sat_cast d (b.pixels.getD (y * b.width + x) 0)
  exact getD_map_lt _ _ _ (by rw [hwf]; exact idx_lt hx hy)

lemma pix_cast_pixels_so (d : image_dtype) (o s : ℚ) (b : image_buffer) (hwf : b.wf)
    {x y : Nat} (hx : x < b.width) (hy : y < b.height) :
    (cast_pixels_so d o s b).pix x y =
      sat_cast d ((b.pix x y * b.scaling + b.offset - o) / s) := by
  show (b.pixels.map (fun p => sat_cast d ((p * b.scaling + b.offset - o) / s))).getD
      (y * b.width + x) 0 =
    sat_cast d ((b.pixels.getD (y * b.width + x) 0 * b.scaling + b.offset - o) / s)
  exact getD_map_lt _ _ _ (by rw [hwf]; exact idx_lt hx hy)

lemma image_cast_typed_null (d : image_dtype) (o s : ℚ) :
    image_cast_typed d .image_null o s = .error .InvalidInput := by
  unfold image_cast_typed
  split <;> rfl

/-- Claim C3: casting a buffer to its own concrete type with requested
offset 0.0 and scaling 1.0, when the source metadata is also at the identity
defaults, returns the source buffer unchanged: same pixel data, dimensions
and offset/scaling metadata, with no numeric transform applied.  This holds
for every supported format and every dimension, including 0x0 buffers. -/
theorem C3_identity_cast (b : image_buffer) (hnn : b.dtype ≠ .null)
    (ho : b.offset = 0) (hs : b.scaling = 1) :
    image_cast_typed b.dtype (.image_buf b) 0 1 = .ok b := by
  unfold image_cast_typed
  rw [if_pos ⟨rfl, rfl, ho, hs⟩]
  simp [visitor_image_cast]

theorem C3_identity_cast_witness :
    image_cast_typed exBuf.dtype (.image_buf exBuf) 0 1 = .ok exBuf :=
  C3_identity_cast exBuf (by decide) (by decide) (by decide)

/-- Claim C4: casting the null variant to any target format fails with
`InvalidInput`, for every destination tag and offset/scaling pair, and
casting any source to the null target format fails with `InvalidInput`; in
both cases no output buffer is produced. -/
theorem C4_null_rejection (data : image_any) (t : image_dtype) (o s : ℚ) :
    image_cast_any .image_null t o s = .error .InvalidInput ∧
    image_cast_any data .null o s = .error .InvalidInput := by
  constructor
  · cases t <;> simp [image_cast_any, image_cast_typed_null, Except.map]
  · rfl

/-- Claim C5: the per-type entry point selects the plain-cast visitor if and
only if the requested offset is 0.0, the requested scaling is 1.0, and the
source buffer's own offset and scaling are 0.0 and 1.0 (strict equality
against the identity constants); in every other case it selects the
rescaling visitor. -/
theorem C5_guard_selection (d : image_dtype) (data : image_any) (o s : ℚ) :
    ((o = 0 ∧ s = 1 ∧ data.get_offset = 0 ∧ data.get_scaling = 1) →
      image_cast_typed d data o s = visitor_image_cast d data) ∧
    (¬(o = 0 ∧ s = 1 ∧ data.get_offset = 0 ∧ data.get_scaling = 1) →
      image_cast_typed d data o s = visitor_image_cast_so d o s data) := by
  constructor
  · intro h
    unfold image_cast_typed
    rw [if_pos h]
  · intro h
    unfold image_cast_typed
    rw [if_neg h]

theorem C5_guard_selection_witness :
    image_cast_typed .gray16 (.image_buf exBuf) 0 1 =
      visitor_image_cast .gray16 (.image_buf exBuf) :=
  (C5_guard_selection .gray16 (.image_buf exBuf) 0 1).1 (by decide)

/-- Claim C6: when the source's active kind already equals the destination
kind, the rescaling-cast visitor returns a direct copy of the source buffer
(pixels and source offset/scaling metadata preserved), and the requested
target offset/scaling are not applied: the result is independent of those
parameters. -/
theorem C6_so_same_kind_copy (d : image_dtype) (b : image_buffer)
    (hdt : b.dtype = d) (o s o2 s2 : ℚ) :
    visitor_image_cast_so d o s (.image_buf b) = .ok b ∧
    visitor_image_cast_so d o s (.image_buf b) =
      visitor_image_cast_so d o2 s2 (.image_buf b) := by
  constructor <;> simp [visitor_image_cast_so, hdt]

theorem C6_so_same_kind_copy_witness :
    visitor_image_cast_so .gray8 3 7 (.image_buf exBuf) = .ok exBuf ∧
    visitor_image_cast_so .gray8 3 7 (.image_buf exBuf) =
      visitor_image_cast_so .gray8 11 13 (.image_buf exBuf) :=
  C6_so_same_kind_copy .gray8 exBuf (by decide) 3 7 11 13

/-- Claim C2: for a non-null source whose active kind differs from the
destination kind, the rescaling conversion with parameters
(target_offset, target_scaling) produces a new buffer of the destination
kind whose offset and scaling metadata equal the targets, and whose pixel at
every in-range coordinate (x,y) is the saturating cast of
`((source_pixel * src_scaling + src_offset) - target_offset) /
target_scaling`, with `src_offset`/`src_scaling` read from the source. -/
theorem C2_rescale_formula (d : image_dtype) (b : image_buffer) (o s : ℚ)
    (hne : b.dtype ≠ d) (hwf : b.wf) (x y : Nat)
    (hx : x < b.width) (hy : y < b.height) :
    ∃ r, visitor_image_cast_so d o s (.image_buf b) = .ok r ∧
      r.dtype = d ∧ r.offset = o ∧ r.scaling = s ∧
      r.pix x y = sat_cast d ((b.pix x y * b.scaling + b.offset - o) / s) := by
  refine ⟨cast_pixels_so d o s b, ?_, rfl, rfl, rfl, ?_⟩
  · simp [visitor_image_cast_so, hne]
  · exact pix_cast_pixels_so d o s b hwf hx hy

theorem C2_rescale_formula_witness :
    ∃ r, visitor_image_cast_so .gray16 5 2 (.image_buf exBuf) = .ok r ∧
      r.dtype = .gray16 ∧ r.offset = 5 ∧ r.scaling = 2 ∧
      r.pix 1 0 = sat_cast .gray16
        ((exBuf.pix 1 0 * exBuf.scaling + exBuf.offset - 5) / 2) :=
  C2_rescale_formula .gray16 exBuf 5 2 (by decide) (by decide) 1 0
    (by decide) (by decide)

lemma visitor_cast_dims (d : image_dtype) (b r : image_buffer)
    (h : visitor_image_cast d (.image_buf b) = .ok r) :
    r.width = b.width ∧ r.height = b.height ∧
      r.pixels.length = b.pixels.length := by
  simp only [visitor_image_cast] at h
  split at h
  · injection h with h2
    subst h2
    exact ⟨rfl, rfl, rfl⟩
  · injection h with h2
    subst h2
    exact ⟨rfl, rfl, by simp [cast_pixels]⟩

lemma visitor_cast_so_dims (d : image_dtype) (o s : ℚ) (b r : image_buffer)
    (h : visitor_image_cast_so d o s (.image_buf b) = .ok r) :
    r.width = b.width ∧ r.height = b.height ∧
      r.pixels.length = b.pixels.length := by
  simp only [visitor_image_cast_so] at h
  split at h
  · injection h with h2
    subst h2
    exact ⟨rfl, rfl, rfl⟩
  · injection h with h2
    subst h2
    exact ⟨rfl, rfl, by simp [cast_pixels_so]⟩

/-- Claim C7: whenever a per-type conversion succeeds, the output buffer has
the same width and height as the input buffer, and the same number of grid
elements: no pixel is dropped, for every destination kind and every
offset/scaling pair. -/
theorem C7_dims_preserved (d : image_dtype) (b : image_buffer) (o s : ℚ)
    (r : image_buffer) (h : image_cast_typed d (.image_buf b) o s = .ok r) :
    r.width = b.width ∧ r.height = b.height ∧
      r.pixels.length = b.pixels.length := by
  unfold image_cast_typed at h
  split at h
  · exact visitor_cast_dims d b r h
  · exact visitor_cast_so_dims d o s b r h

theorem C7_dims_preserved_witness :
    (cast_pixels .gray16 exBuf).width = exBuf.width ∧
    (cast_pixels .gray16 exBuf).height = exBuf.height ∧
    (cast_pixels .gray16 exBuf).pixels.length = exBuf.pixels.length :=
  C7_dims_preserved .gray16 exBuf 0 1 (cast_pixels .gray16 exBuf) (by rfl)

lemma typed_map_no_unknown (d : image_dtype) (data : image_any) (o s : ℚ) :
    (image_cast_typed d data o s).map image_any.image_buf ≠
      .error .UnknownFormat := by
  unfold image_cast_typed
  split
  · cases data with
    | image_null => simp [visitor_image_cast, Except.map]
    | image_buf b =>
        simp only [visitor_image_cast]
        split <;> simp [Except.map]
  · cases data with
    | image_null => simp [visitor_image_cast_so, Except.map]
    | image_buf b =>
        simp only [visitor_image_cast_so]
        split <;> simp [Except.map]

/-- Claim C8: the dispatcher, seen through the integer type underlying the
C++ enum, fails with `UnknownFormat` exactly on the values outside the
closed enumeration (codes 0..4 for rgba8, gray8, gray16, gray32f, null);
for every recognized enumerator the `UnknownFormat` branch is unreachable. -/
theorem C8_unknown_format (data : image_any) (t : Nat) (o s : ℚ) :
    (5 ≤ t → image_cast_code data t o s = .error .UnknownFormat) ∧
    (t < 5 → image_cast_code data t o s ≠ .error .UnknownFormat) := by
  constructor
  · intro h
    unfold image_cast_code
    rw [if_neg (by omega), if_neg (by omega), if_neg (by omega),
      if_neg (by omega), if_neg (by omega)]
  · intro h
    unfold image_cast_code
    interval_cases t
    · exact typed_map_no_unknown _ data o s
    · exact typed_map_no_unknown _ data o s
    · exact typed_map_no_unknown _ data o s
    · exact typed_map_no_unknown _ data o s
    · intro hc
      injection hc with h2
      cases h2

theorem C8_unknown_format_witness :
    image_cast_code .image_null 7 0 1 = .error .UnknownFormat ∧
    image_cast_code .image_null 2 0 1 ≠ .error .UnknownFormat :=
  ⟨(C8_unknown_format .image_null 7 0 1).1 (by decide),
   (C8_unknown_format .image_null 2 0 1).2 (by decide)⟩

/-- Example rgba8 buffer whose single pixel packs the channels
(r,g,b,a) = (1,1,0,0) into the word 257. -/
def exBufRgba : image_buffer :=
  { dtype := .rgba8
    width := 1
    height := 1
    pixels := [pack_rgba 1 1 0 0]
    offset := 0
    scaling := 1 }

/-- Claim C9: when an rgba8 source is converted to a grayscale destination
kind, every destination pixel is the saturating cast of the source pixel's
whole packed 32-bit word treated as a single integer; no per-channel
extraction or luminance computation is performed. -/
theorem C9_rgba8_packed_word (d : image_dtype)
    (hd : d = .gray8 ∨ d = .gray16 ∨ d = .gray32f)
    (b : image_buffer) (hb : b.dtype = .rgba8) (hwf : b.wf)
    (x y : Nat) (hx : x < b.width) (hy : y < b.height)
    (r g bl a : ℕ) (hpix : b.pix x y = pack_rgba r g bl a) :
    ∃ res, visitor_image_cast d (.image_buf b) = .ok res ∧
      res.pix x y = sat_cast d (pack_rgba r g bl a) := by
  have hne : b.dtype ≠ d := by
    rw [hb]
    rcases hd with h | h | h <;> rw [h] <;> decide
  refine ⟨cast_pixels d b, ?_, ?_⟩
  · simp [visitor_image_cast, hne]
  · rw [pix_cast_pixels d b hwf hx hy, hpix]

theorem C9_rgba8_packed_word_witness :
    ∃ res, visitor_image_cast .gray16 (.image_buf exBufRgba) = .ok res ∧
      res.pix 0 0 = sat_cast .gray16 (pack_rgba 1 1 0 0) :=
  C9_rgba8_packed_word .gray16 (Or.inr (Or.inl rfl)) exBufRgba (by decide)
    (by decide) 0 0 (by decide) (by decide) 1 1 0 0 (by rfl)

/-- Claim C10: for a non-null source whose kind differs from the destination
kind, when the requested offset is 0.0, the requested scaling is 1.0, and
the source buffer's own offset and scaling are at the identity defaults, the
plain-cast visitor and the rescaling-cast visitor produce identical output
buffers (same dimensions, pixels, and offset/scaling metadata): the
dispatcher's fast-path guard never changes the observable result. -/
theorem C10_visitors_agree (d : image_dtype) (b : image_buffer)
    (hne : b.dtype ≠ d) (ho : b.offset = 0) (hs : b.scaling = 1) :
    visitor_image_cast d (.image_buf b) =
      visitor_image_cast_so d 0 1 (.image_buf b) := by
  have heq : cast_pixels_so d 0 1 b = cast_pixels d b := by
    unfold cast_pixels cast_pixels_so
    have hfun : (fun p => sat_cast d ((p * b.scaling + b.offset - 0) / 1)) =
        fun p => sat_cast d p := by
      funext p
      rw [ho, hs, mul_one, add_zero, sub_zero, div_one]
    rw [hfun]
  simp [visitor_image_cast, visitor_image_cast_so, hne, heq]

theorem C10_visitors_agree_witness :
    visitor_image_cast .gray16 (.image_buf exBuf) =
      visitor_image_cast_so .gray16 0 1 (.image_buf exBuf) :=
  C10_visitors_agree .gray16 exBuf (by decide) (by decide) (by decide)

/-- A 1x1 gray8 source whose scaling metadata makes the rescaled
intermediate value `1 * (-2^200) = -2^200`, far below `-FLT_MAX`. -/
def bugBuf : image_buffer :=
  { dtype := .gray8
    width := 1
    height := 1
    pixels := [1]
    offset := 0
    scaling := -(2 ^ 200) }

/-- Claim C1: the per-pixel conversion is claimed to saturate below the
destination's minimum representable value to exactly that minimum.  The code
violates this for the float destination: on negative overflow the handler
stores `std::numeric_limits<float>::min()`, which is the smallest positive
normalized float `2^(-126)`, not float's minimum representable value
`-FLT_MAX`.  Evaluating the conversion at a failing input: a gray8 pixel of
raw value 1 under source scaling `-2^200`, cast to gray32f with identity
target parameters, stores the positive value `2^(-126)`. -/
theorem C1_negative_overflow_to_float_stores_positive :
    ∃ r, image_cast_typed .gray32f (.image_buf bugBuf) 0 1 = .ok r ∧
      r.pix 0 0 = flt_min_pos ∧ 0 < flt_min_pos ∧ flt_min_pos ≠ -flt_max := by
  have hguard : ¬((0 : ℚ) = 0 ∧ (1 : ℚ) = 1 ∧
      (image_any.image_buf bugBuf).get_offset = 0 ∧
      (image_any.image_buf bugBuf).get_scaling = 1) := by
    intro h
    have h2 := h.2.2.2
    simp only [image_any.get_scaling, bugBuf] at h2
    norm_num at h2
  refine ⟨cast_pixels_so .gray32f 0 1 bugBuf, ?_, ?_, ?_, ?_⟩
  · unfold image_cast_typed
    rw [if_neg hguard]
    simp [visitor_image_cast_so, bugBuf]
  · have hp := pix_cast_pixels_so .gray32f 0 1 bugBuf (by decide)
      (x := 0) (y := 0) (by decide) (by decide)
    rw [hp]
    have hval : (bugBuf.pix 0 0 * bugBuf.scaling + bugBuf.offset - 0) / 1 =
        -(2 ^ 200 : ℚ) := by
      simp only [image_buffer.pix, bugBuf]
      norm_num
    rw [hval]
    unfold sat_cast
    rw [if_neg (by unfold flt_max; norm_num), if_pos (by unfold flt_max; norm_num)]
  · unfold flt_min_pos
    norm_num
  · unfold flt_min_pos flt_max
    norm_num
